import Mathlib

/-
Verification of the finamo-app authenticated session manager.

The definitions below are a shallow embedding of the session-management
code in `src/services/authService.ts` and the secure-storage helpers
(`storeRefreshToken` / `getRefreshToken` / `removeRefreshToken` /
`getDeviceId` / `generateDeviceId`).  Each definition carries a comment
citing the source lines it translates.  Network I/O is represented by an
explicit outcome parameter (success payload, HTTP-401 error, other error),
and the module-level mutable globals (`inMemoryAccessToken`,
`isRefreshing`, `refreshSubscribers`) become fields of an explicit state
record threaded through the operations.
-/

namespace Finamo

/-- Model of JavaScript `String.prototype.startsWith`. -/
def strStartsWith (s p : String) : Bool :=
  p.data.isPrefixOf s.data

/-- Substring occurrence test on character lists: true iff `needle`
occurs contiguously in the list. -/
def listIncludes (needle : List Char) : List Char → Bool
  | [] => needle.isEmpty
  | c :: rest => needle.isPrefixOf (c :: rest) || listIncludes needle rest

/-- Model of JavaScript `String.prototype.includes`. -/
def strIncludes (s sub : String) : Bool :=
  listIncludes sub.data s.data

/-
Request interceptor, authService.ts lines 110-130.
-/

/-- authService.ts lines 113-115: a request target counts as an
unauthenticated auth endpoint when its url starts with `/auth/` and does
not contain `/logout` and does not contain `/me`. -/
def isAuthEndpoint (url : String) : Bool :=
  strStartsWith url "/auth/" &&
    !(strIncludes url "/logout") &&
    !(strIncludes url "/me")

/-- authService.ts lines 117-119: the Authorization header the request
interceptor attaches, given the request url and the current in-memory
access token.  The header is set only when the url is not an auth
endpoint and a token is present in memory. -/
def attachAuthHeader (url : String) (tok : Option String) : Option String :=
  if !(isAuthEndpoint url) && tok.isSome then
    tok.map (fun t => "Bearer " ++ t)
  else
    none

/-
Module-level session state of authService.ts:
  `inMemoryAccessToken` (line 60), `isRefreshing` (line 65),
  `refreshSubscribers` (line 70, the wait queue of callbacks, here
  represented by the ids of the waiting requests), plus the refresh
  token held by the Secure Credential Store (secure storage), and a
  counter of network POSTs issued to `/auth/refresh` (line 217).
-/
structure AuthState where
  inMemoryAccessToken : Option String
  storedRefreshToken : Option String
  isRefreshing : Bool
  refreshSubscribers : List Nat
  refreshNetworkCalls : Nat
  deriving DecidableEq

/-- Idle coordinator state with a stored refresh token and an arbitrary
in-memory access token: no refresh in flight, empty wait queue, no
refresh network call issued yet. -/
def idleState (mem : Option String) (rt : String) : AuthState :=
  { inMemoryAccessToken := mem
    storedRefreshToken := some rt
    isRefreshing := false
    refreshSubscribers := []
    refreshNetworkCalls := 0 }

/-
Response interceptor guard, authService.ts lines 143-157.
-/

inductive GuardDecision where
  | propagate
  | attemptRefresh
  deriving DecidableEq

/-- authService.ts lines 147-154: reject (propagate the error) when the
status is not 401 or the request was already retried (line 147), or when
the request url starts with `/auth/` (line 152); otherwise proceed to
the refresh path (line 157 then marks the request retried). -/
def respGuard (status : Nat) (retried : Bool) (url : String) : GuardDecision :=
  if (status != 401) || retried then
    GuardDecision.propagate
  else if strStartsWith url "/auth/" then
    GuardDecision.propagate
  else
    GuardDecision.attemptRefresh

/-- Number of refresh attempts made for one request over a run of `n`
consecutive 401 responses, starting from retry flag `retried`.  Each
pass through the refresh path sets `_retry` to true (line 157) before
attempting recovery. -/
def retries401 (url : String) : Nat → Bool → Nat
  | 0, _ => 0
  | n + 1, retried =>
    match respGuard 401 retried url with
    | GuardDecision.propagate => retries401 url n retried
    | GuardDecision.attemptRefresh => 1 + retries401 url n true

/-
Token refresh exchange, authService.ts lines 207-247.
-/

/-- Outcome of the network POST to `/auth/refresh`: success with a new
access/refresh pair, an HTTP 401 rejection, or any other error. -/
inductive NetResult where
  | ok (newAccess newRefresh : String)
  | err401 (e : String)
  | errOther (e : String)
  deriving DecidableEq

/-- Result of `performTokenRefresh`: a returned access token, a returned
null, or a thrown error. -/
inductive RefreshOutcome where
  | tok (t : String)
  | nullTok
  | thrown (e : String)
  deriving DecidableEq

/-- authService.ts lines 207-247, `performTokenRefresh`.
Reads the stored refresh token; with none stored it returns null without
any network call (lines 211-214).  Otherwise it issues the POST to
`/auth/refresh` (line 217, counted by `refreshNetworkCalls`); on success
it stores the rotated refresh token (line 233) and returns the new
access token; on an HTTP 401 it clears both tokens (`clearAllTokens`,
lines 241-243) and rethrows; on any other error it rethrows without
clearing (line 245). -/
def performTokenRefresh (net : NetResult) (s : AuthState) :
    RefreshOutcome × AuthState :=
  match s.storedRefreshToken with
  | none => (RefreshOutcome.nullTok, s)
  | some _ =>
    let s1 : AuthState :=
      { s with refreshNetworkCalls := s.refreshNetworkCalls + 1 }
    match net with
    | NetResult.ok newAccess newRefresh =>
      (RefreshOutcome.tok newAccess,
        { s1 with storedRefreshToken := some newRefresh })
    | NetResult.err401 e =>
      (RefreshOutcome.thrown e,
        { s1 with inMemoryAccessToken := none, storedRefreshToken := none })
    | NetResult.errOther e => (RefreshOutcome.thrown e, s1)

/-
clearAllTokens and logout, authService.ts lines 276-279 and 370-388.
-/

/-- authService.ts lines 276-279, `clearAllTokens`: null the in-memory
access token and remove the refresh token from secure storage. -/
def clearAllTokens (s : AuthState) : AuthState :=
  { s with inMemoryAccessToken := none, storedRefreshToken := none }

/-- Outcome of the best-effort POST to `/auth/logout`. -/
inductive LogoutNetOutcome where
  | success
  | thrown (e : String)
  deriving DecidableEq

/-- Body of the POST to `/auth/logout` (lines 376-379). -/
structure LogoutRequest where
  refresh_token : String
  all_devices : Bool
  deriving DecidableEq

/-- authService.ts lines 370-388, `logout`.
The try block reads the stored refresh token and, when present, issues
the best-effort POST to `/auth/logout` (lines 372-380); any thrown
error is caught and only logged (lines 381-383); the finally block
always runs `clearAllTokens` (lines 384-387).  Returns the final local
state together with the logout request issued, if any. -/
def logout (allDevices : Bool) (net : LogoutNetOutcome) (s : AuthState) :
    AuthState × Option LogoutRequest :=
  let req : Option LogoutRequest :=
    match s.storedRefreshToken with
    | some rt => some { refresh_token := rt, all_devices := allDevices }
    | none => none
  match net with
  | LogoutNetOutcome.success => (clearAllTokens s, req)
  | LogoutNetOutcome.thrown _ => (clearAllTokens s, req)

/-
Response interceptor 401 round, authService.ts lines 139-196.
-/

/-- What happens to one 401 caller when its error reaches the response
interceptor: immediate rejection by the guard, queueing on the wait
list, or initiating the refresh exchange. -/
inductive ArrivalAction where
  | rejected
  | queued
  | initiated
  deriving DecidableEq

/-- Final disposition of one request that went through the 401 path:
the original error was propagated (Promise.reject(error)), the refresh
error was propagated (Promise.reject(refreshError)), or the request was
re-issued with header `Authorization: Bearer t` (resolving the waiting
promise through authApi(originalRequest)). -/
inductive Outcome where
  | rejectedOriginal
  | rejectedRefreshError (e : String)
  | retriedWith (t : String)
  deriving DecidableEq

/-- A request as seen by the response interceptor: its id, its url
(`originalRequest.url`) and its `_retry` flag. -/
structure Request where
  reqId : Nat
  url : String
  retried : Bool
  deriving DecidableEq

/-- One 401 error handled by the response interceptor, lines 143-170.
After the guard (lines 147-154) admits the request, line 157 marks it
retried; then if a refresh is already in flight the caller subscribes
to the wait queue (lines 160-167), else it flips `isRefreshing` and
will perform the refresh itself (line 170). -/
def handleResponseError (status : Nat) (r : Request) (s : AuthState) :
    ArrivalAction × AuthState :=
  match respGuard status r.retried r.url with
  | GuardDecision.propagate => (ArrivalAction.rejected, s)
  | GuardDecision.attemptRefresh =>
    if s.isRefreshing then
      (ArrivalAction.queued,
        { s with refreshSubscribers := s.refreshSubscribers ++ [r.reqId] })
    else
      (ArrivalAction.initiated, { s with isRefreshing := true })

/-- A batch of 401 errors arriving one after another on the event loop
(each handler section up to the refresh await runs atomically).  Returns
the id of the request that initiated the refresh (if any), the outcomes
settled immediately by the guard, and the resulting state.  Once a
request has initiated, `isRefreshing` is true, so no later request in
the batch can initiate. -/
def arriveList : List Request → AuthState → Option Nat × List (Nat × Outcome) × AuthState
  | [], s => (none, [], s)
  | r :: t, s =>
    let step := handleResponseError 401 r s
    let rest := arriveList t step.2
    match step.1 with
    | ArrivalAction.rejected =>
      (rest.1, (r.reqId, Outcome.rejectedOriginal) :: rest.2.1, rest.2.2)
    | ArrivalAction.queued => (rest.1, rest.2.1, rest.2.2)
    | ArrivalAction.initiated => (some r.reqId, rest.2.1, rest.2.2)

/-- Continuation of the initiating caller after `await performTokenRefresh`
returns, authService.ts lines 172-195.
On a returned token (lines 175-184): `setAccessToken` stores it,
`onTokenRefreshed` invokes every queued callback with the new token and
empties the queue (lines 82-85), and the initiator re-issues its own
request; the finally block resets `isRefreshing`.
On a returned null: control falls through to `Promise.reject(error)` at
line 194; the queue is left untouched.
On a thrown refresh error (lines 186-189): `await logout()` clears the
session state locally, the initiator is rejected with the refresh error,
and the finally block resets `isRefreshing`; the queued callbacks are
neither invoked nor removed. -/
def completeRefresh (initiatorId : Nat) (net : NetResult) (s : AuthState) :
    AuthState × List (Nat × Outcome) :=
  let res := performTokenRefresh net s
  let s1 := res.2
  match res.1 with
  | RefreshOutcome.tok newToken =>
    ({ s1 with inMemoryAccessToken := some newToken
               refreshSubscribers := []
               isRefreshing := false },
      s1.refreshSubscribers.map (fun j => (j, Outcome.retriedWith newToken)) ++
        [(initiatorId, Outcome.retriedWith newToken)])
  | RefreshOutcome.nullTok =>
    ({ s1 with isRefreshing := false },
      [(initiatorId, Outcome.rejectedOriginal)])
  | RefreshOutcome.thrown e =>
    ({ clearAllTokens s1 with isRefreshing := false },
      [(initiatorId, Outcome.rejectedRefreshError e)])

/-- One whole 401 recovery round: a batch of 401 arrivals followed, when
one of them started a refresh, by the completion of that refresh with
network outcome `net`.  Returns the final state and the dispositions
settled during the round. -/
def runRound (reqs : List Request) (net : NetResult) (s0 : AuthState) :
    AuthState × List (Nat × Outcome) :=
  let arr := arriveList reqs s0
  match arr.1 with
  | some i =>
    let fin := completeRefresh i net arr.2.2
    (fin.1, arr.2.1 ++ fin.2)
  | none => (arr.2.2, arr.2.1)

/-
restoreSession, authService.ts lines 396-418.
-/

/-- Shape of the user profile (`UserResponse`, lines 38-44). -/
structure UserProfile where
  id : Nat
  email : String
  name : Option String
  created_at : String
  updated_at : String
  deriving DecidableEq

/-- authService.ts lines 396-418, `restoreSession`.
Returns null immediately when no refresh token is stored (lines
397-401).  Otherwise it runs `performTokenRefresh`; when that returns a
token, the token is stored in memory but the function still returns
null (lines 406-411, the `/auth/me` fetch is a TODO); when it returns
null or throws, the catch block logs and the function returns null
(lines 413-417). -/
def restoreSession (net : NetResult) (s : AuthState) :
    Option UserProfile × AuthState :=
  match s.storedRefreshToken with
  | none => (none, s)
  | some _ =>
    let res := performTokenRefresh net s
    match res.1 with
    | RefreshOutcome.tok a =>
      (none, { res.2 with inMemoryAccessToken := some a })
    | RefreshOutcome.nullTok => (none, res.2)
    | RefreshOutcome.thrown _ => (none, res.2)

/-
Timeout configuration, authService.ts line 96 versus lines 217-228.
-/

/-- authService.ts line 96: the axios instance `authApi` is created with
`timeout: 15000`. -/
def authApiTimeoutConfig : Option Nat := some 15000

/-- authService.ts lines 217-228: the refresh exchange is a bare
`axios.post` whose config object holds only headers — no timeout key. -/
def refreshPostTimeoutConfig : Option Nat := none

/-- Modelled from the axios library contract: when a request config sets
no timeout, axios uses its default `timeout: 0`, meaning no timeout is
applied. -/
def axiosDefaultTimeout : Nat := 0

/-- Effective timeout of a call: the configured value, or the axios
default when none is configured. -/
def effectiveTimeout (c : Option Nat) : Nat :=
  c.getD axiosDefaultTimeout

/-- The outbound network calls the auth service issues. -/
inductive OutboundCall where
  | loginCall
  | registerCall
  | logoutCall
  | meCall
  | otherAuthApiCall
  | refreshExchange
  deriving DecidableEq

/-- Which timeout configuration governs each outbound call: every call
through the `authApi` instance inherits the instance config (line 96);
the refresh exchange uses the bare-axios config of lines 217-228. -/
def callTimeoutConfig : OutboundCall → Option Nat
  | OutboundCall.refreshExchange => refreshPostTimeoutConfig
  | _ => authApiTimeoutConfig

/-
Device id, secure-storage module (src/types/index.ts concatenation),
generateDeviceId lines 159-166 and getDeviceId lines 174-191.
-/

/-- Lowercase hexadecimal digit for a value below 16. -/
def hexDigit (n : Nat) : Char :=
  if n < 10 then Char.ofNat (48 + n) else Char.ofNat (87 + n)

/-- The UUID template string of generateDeviceId (line 161). -/
def uuidTemplate : List Char :=
  "xxxxxxxx-xxxx-4xxx-yxxx-xxxxxxxxxxxx".data

/-- Template replacement of generateDeviceId (lines 161-165): each `x`
consumes one random draw `r` (0..15, from `Math.random()*16|0`) and
becomes the hex digit of `r`; each `y` consumes one draw and becomes
the hex digit of `(r AND 3) OR 8`; every other character is kept.  The
random source is a stream indexed by draw number. -/
def genChars (rand : Nat → Nat) : List Char → Nat → List Char
  | [], _ => []
  | c :: cs, i =>
    if c = 'x' then
      hexDigit (rand i % 16) :: genChars rand cs (i + 1)
    else if c = 'y' then
      hexDigit (8 + (rand i % 16) % 4) :: genChars rand cs (i + 1)
    else
      c :: genChars rand cs i

/-- generateDeviceId, lines 159-166: a fresh UUID-shaped string built
from the random stream of this particular call. -/
def generateDeviceId (rand : Nat → Nat) : String :=
  String.mk (genChars rand uuidTemplate 0)

/-- The secure-storage slot holding the persisted device id. -/
structure StorageState where
  deviceId : Option String
  deriving DecidableEq

/-- getDeviceId, lines 174-191.  `storageOk` tells whether the secure
storage operations of this call succeed.  When they do: return the
persisted id when present; on first run generate a new id, persist it
and return it (lines 176-185).  When storage fails, the catch block
returns a freshly generated id without persisting anything (lines
186-190); nothing caches that fallback for later calls. -/
def getDeviceId (storageOk : Bool) (rand : Nat → Nat) (s : StorageState) :
    String × StorageState :=
  if storageOk then
    match s.deviceId with
    | some id => (id, s)
    | none =>
      let id := generateDeviceId rand
      (id, { deviceId := some id })
  else
    (generateDeviceId rand, s)

/-
Helper lemmas shared by the claim theorems.
-/

lemma respGuard_ok (url : String) (h : strStartsWith url "/auth/" = false) :
    respGuard 401 false url = GuardDecision.attemptRefresh := by
  simp [respGuard, h]

lemma respGuard_retried (status : Nat) (url : String) :
    respGuard status true url = GuardDecision.propagate := by
  simp [respGuard]

lemma retries401_true (url : String) : ∀ n, retries401 url n true = 0
  | 0 => rfl
  | n + 1 => by
    simp [retries401, respGuard_retried, retries401_true url n]

lemma retries401_false_le_one (url : String) :
    ∀ n, retries401 url n false ≤ 1
  | 0 => by simp [retries401]
  | n + 1 => by
    cases h : respGuard 401 false url with
    | propagate =>
      have ih := retries401_false_le_one url n
      simpa [retries401, h] using ih
    | attemptRefresh =>
      simp [retries401, h, retries401_true url n]

lemma arriveList_refreshing :
    ∀ (reqs : List Request) (s : AuthState),
      s.isRefreshing = true →
      (∀ q ∈ reqs, q.retried = false ∧ strStartsWith q.url "/auth/" = false) →
      arriveList reqs s =
        (none, [],
          { s with refreshSubscribers :=
              s.refreshSubscribers ++ reqs.map Request.reqId })
  | [], s, _, _ => by simp [arriveList]
  | r :: t, s, hs, hall => by
    obtain ⟨mem, st, isr, subs, calls⟩ := s
    replace hs : isr = true := hs
    subst hs
    have hr := hall r (by simp)
    have hguard : respGuard 401 r.retried r.url = GuardDecision.attemptRefresh := by
      rw [hr.1]; exact respGuard_ok r.url hr.2
    have ht : ∀ q ∈ t, q.retried = false ∧ strStartsWith q.url "/auth/" = false :=
      fun q hq => hall q (List.mem_cons_of_mem r hq)
    have ih := arriveList_refreshing t
      ⟨mem, st, true, subs ++ [r.reqId], calls⟩ rfl ht
    simp [arriveList, handleResponseError, hguard, ih, List.append_assoc]

lemma genChars_length (rand : Nat → Nat) :
    ∀ (t : List Char) (i : Nat), (genChars rand t i).length = t.length
  | [], _ => rfl
  | c :: cs, i => by
    by_cases hx : c = 'x'
    · simp [genChars, hx, genChars_length rand cs (i + 1)]
    · by_cases hy : c = 'y'
      · simp [genChars, hx, hy, genChars_length rand cs (i + 1)]
      · simp [genChars, hx, hy, genChars_length rand cs i]

/-
Claim theorems.
-/

/-- Claim C1: single-flight refresh.  For every nonempty batch of
requests that each receive a 401 while a valid refresh token is stored
(each request unretried and targeting a non-auth endpoint), the first
arrival initiates the refresh and every later arrival is queued instead
of starting a second exchange; exactly one network call to
`/auth/refresh` is issued, the coordinator returns to idle with a
drained queue, and every request of the batch is re-issued carrying the
same new access token. -/
theorem c1_single_flight (r0 : Request) (rest : List Request)
    (mem : Option String) (rt a newRt : String)
    (hall : ∀ q ∈ r0 :: rest,
      q.retried = false ∧ strStartsWith q.url "/auth/" = false) :
    runRound (r0 :: rest) (NetResult.ok a newRt) (idleState mem rt) =
      ({ inMemoryAccessToken := some a
         storedRefreshToken := some newRt
         isRefreshing := false
         refreshSubscribers := []
         refreshNetworkCalls := 1 },
        (rest.map Request.reqId).map (fun j => (j, Outcome.retriedWith a)) ++
          [(r0.reqId, Outcome.retriedWith a)]) ∧
    (∀ q ∈ r0 :: rest,
      (q.reqId, Outcome.retriedWith a) ∈
        (runRound (r0 :: rest) (NetResult.ok a newRt) (idleState mem rt)).2) := by
  have h0 := hall r0 (by simp)
  have hguard : respGuard 401 r0.retried r0.url = GuardDecision.attemptRefresh := by
    rw [h0.1]; exact respGuard_ok r0.url h0.2
  have ht : ∀ q ∈ rest, q.retried = false ∧ strStartsWith q.url "/auth/" = false :=
    fun q hq => hall q (List.mem_cons_of_mem r0 hq)
  have ih := arriveList_refreshing rest ⟨mem, some rt, true, [], 0⟩ rfl ht
  have hrun : runRound (r0 :: rest) (NetResult.ok a newRt) (idleState mem rt) =
      ({ inMemoryAccessToken := some a
         storedRefreshToken := some newRt
         isRefreshing := false
         refreshSubscribers := []
         refreshNetworkCalls := 1 },
        (rest.map Request.reqId).map (fun j => (j, Outcome.retriedWith a)) ++
          [(r0.reqId, Outcome.retriedWith a)]) := by
    simp [runRound, arriveList, handleResponseError, hguard, idleState, ih,
      completeRefresh, performTokenRefresh]
  refine ⟨hrun, ?_⟩
  intro q hq
  rw [hrun]
  rcases List.mem_cons.mp hq with h | h
  · subst h
    exact List.mem_append.mpr (Or.inr (by simp))
  · have hj : q.reqId ∈ rest.map Request.reqId := List.mem_map.mpr ⟨q, h, rfl⟩
    exact List.mem_append.mpr (Or.inl (List.mem_map.mpr ⟨q.reqId, hj, rfl⟩))

/-- Witness for C1: two concurrent 401 requests, ids 0 and 1, with
refresh token RT1 stored; one refresh call is issued and both are
re-issued with the new token AT2. -/
theorem c1_single_flight_witness :
    runRound [⟨0, "/transactions", false⟩, ⟨1, "/transactions", false⟩]
        (NetResult.ok "AT2" "RT2") (idleState none "RT1") =
      ({ inMemoryAccessToken := some "AT2"
         storedRefreshToken := some "RT2"
         isRefreshing := false
         refreshSubscribers := []
         refreshNetworkCalls := 1 },
        [(1, Outcome.retriedWith "AT2"), (0, Outcome.retriedWith "AT2")]) ∧
    (∀ q ∈ ([⟨0, "/transactions", false⟩, ⟨1, "/transactions", false⟩] : List Request),
      (q.reqId, Outcome.retriedWith "AT2") ∈
        (runRound [⟨0, "/transactions", false⟩, ⟨1, "/transactions", false⟩]
          (NetResult.ok "AT2" "RT2") (idleState none "RT1")).2) :=
  c1_single_flight ⟨0, "/transactions", false⟩ [⟨1, "/transactions", false⟩]
    none "RT1" "AT2" "RT2" (by decide)

/-- Claim C2: the 401-recovery pipeline retries a request at most once.
A 401 on a request already marked retried, or on a request whose url is
an auth endpoint (starts with `/auth/`), is propagated without invoking
refresh; and over any run of consecutive 401 responses a request that
starts unretried passes through the refresh path at most once, so
recovery terminates under persistent 401s. -/
theorem c2_retry_budget (n : Nat) (url : String) (retried : Bool)
    (h : retried = true ∨ strStartsWith url "/auth/" = true) :
    respGuard 401 retried url = GuardDecision.propagate ∧
    retries401 url n false ≤ 1 := by
  refine ⟨?_, retries401_false_le_one url n⟩
  rcases h with h | h
  · rw [h]; exact respGuard_retried 401 url
  · cases retried
    · simp [respGuard, h]
    · exact respGuard_retried 401 url

/-- Witness for C2 at a concrete already-retried request and a run of
five consecutive 401 responses. -/
theorem c2_retry_budget_witness :
    respGuard 401 true "/transactions" = GuardDecision.propagate ∧
    retries401 "/transactions" 5 false ≤ 1 :=
  c2_retry_budget 5 "/transactions" true (Or.inl rfl)

/-- Claim C3 (code bug evaluation): two requests, 0 and 1, both receive
a 401 while refresh token RT1 is stored; request 0 initiates the refresh
and request 1 is queued; the refresh exchange then fails with a network
error E.  The code rejects only the initiator with the refresh error and
clears the session (logout) and resets the flag, but request 1 stays on
`refreshSubscribers` and receives no outcome at all: its callback is
never invoked, so its promise is left pending — the queue is not drained
and the waiter is not rejected, contradicting the claim. -/
theorem c3_failed_refresh_strands_waiter :
    runRound [⟨0, "/transactions", false⟩, ⟨1, "/transactions", false⟩]
        (NetResult.errOther "E") (idleState (some "AT1") "RT1") =
      ({ inMemoryAccessToken := none
         storedRefreshToken := none
         isRefreshing := false
         refreshSubscribers := [1]
         refreshNetworkCalls := 1 },
        [(0, Outcome.rejectedRefreshError "E")]) := by
  rfl

/-- Claim C4 (code bug evaluation): with refresh token RT1 stored and a
refresh exchange that succeeds with access token AT2 and rotated refresh
token RT2, `restoreSession` stores AT2 in memory and rotates the stored
token, but still returns null rather than the restored user profile
(the `/auth/me` fetch is a TODO in the source). -/
theorem c4_restore_success_returns_null :
    restoreSession (NetResult.ok "AT2" "RT2") (idleState none "RT1") =
      (none,
        { inMemoryAccessToken := some "AT2"
          storedRefreshToken := some "RT2"
          isRefreshing := false
          refreshSubscribers := []
          refreshNetworkCalls := 1 }) := by
  rfl

/-- Claim C5: for every invocation of `logout`, whatever the outcome of
the best-effort network call to `/auth/logout` (success or thrown) and
whatever the starting session state, afterwards the in-memory access
token is null and the refresh token is removed from secure storage. -/
theorem c5_logout_always_clears (allDevices : Bool) (net : LogoutNetOutcome)
    (s : AuthState) :
    ((logout allDevices net s).1).inMemoryAccessToken = none ∧
    ((logout allDevices net s).1).storedRefreshToken = none := by
  cases net <;> exact ⟨rfl, rfl⟩

/-- Claim C6 (code bug evaluation): a first 401 on the authenticated
`/auth/me` endpoint is propagated by the guard (every url starting with
`/auth/` is excluded at line 152), so no refresh is invoked, no network
refresh call is made and the request is not retried — the state is
unchanged and the only outcome is rejection with the original error. -/
theorem c6_auth_me_401_propagates :
    respGuard 401 false "/auth/me" = GuardDecision.propagate ∧
    runRound [⟨0, "/auth/me", false⟩] (NetResult.ok "AT2" "RT2")
        (idleState (some "AT1") "RT1") =
      (idleState (some "AT1") "RT1", [(0, Outcome.rejectedOriginal)]) := by
  exact ⟨rfl, rfl⟩

/-- Claim C7: the request interceptor attaches
`Authorization: Bearer <token>` to every request whose target is not an
unauthenticated auth endpoint — any url not starting with `/auth/`, and
also the authenticated `/auth/me` and `/auth/logout` — whenever an
access token is in memory; and a request to `/auth/login` never receives
an Authorization header, for every in-memory token state. -/
theorem c7_request_interceptor (t url : String) (tok : Option String)
    (h : strStartsWith url "/auth/" = false ∨ url = "/auth/me" ∨
      url = "/auth/logout") :
    attachAuthHeader url (some t) = some ("Bearer " ++ t) ∧
    attachAuthHeader "/auth/login" tok = none := by
  constructor
  · have hna : isAuthEndpoint url = false := by
      rcases h with h | h | h
      · simp [isAuthEndpoint, h]
      · subst h; decide
      · subst h; decide
    simp [attachAuthHeader, hna]
  · have hae : isAuthEndpoint "/auth/login" = true := by decide
    simp [attachAuthHeader, hae]

/-- Witness for C7 at a concrete non-auth url with a token in memory. -/
theorem c7_request_interceptor_witness :
    attachAuthHeader "/transactions" (some "AT1") = some ("Bearer " ++ "AT1") ∧
    attachAuthHeader "/auth/login" (some "AT1") = none :=
  c7_request_interceptor "AT1" "/transactions" (some "AT1") (Or.inl (by decide))

/-- Claim C8 counterexample: the refresh-token exchange is issued
through a bare axios call whose config sets no timeout, so its effective
timeout is the axios default 0 — no timeout at all — and in particular
it is not bounded within the 15-30 second band the claim states. -/
theorem c8_refresh_call_unbounded :
    effectiveTimeout (callTimeoutConfig OutboundCall.refreshExchange) = 0 ∧
    ¬(15000 ≤ effectiveTimeout (callTimeoutConfig OutboundCall.refreshExchange) ∧
      effectiveTimeout (callTimeoutConfig OutboundCall.refreshExchange) ≤ 30000) := by
  decide

/-- Claim C8 as amended: every outbound call issued through the authApi
instance (login, register, logout, the authenticated requests) carries
the instance timeout of 15000 ms, which lies in the 15-30 second band;
only the refresh exchange is exempt. -/
theorem c8_authapi_calls_bounded (c : OutboundCall)
    (h : c ≠ OutboundCall.refreshExchange) :
    effectiveTimeout (callTimeoutConfig c) = 15000 ∧
    15000 ≤ effectiveTimeout (callTimeoutConfig c) ∧
    effectiveTimeout (callTimeoutConfig c) ≤ 30000 := by
  cases c <;> first | exact absurd rfl h | decide

/-- Witness for the amended C8 at the login call. -/
theorem c8_authapi_calls_bounded_witness :
    effectiveTimeout (callTimeoutConfig OutboundCall.loginCall) = 15000 ∧
    15000 ≤ effectiveTimeout (callTimeoutConfig OutboundCall.loginCall) ∧
    effectiveTimeout (callTimeoutConfig OutboundCall.loginCall) ≤ 30000 :=
  c8_authapi_calls_bounded OutboundCall.loginCall (by decide)

/-- Claim C9 counterexample: with secure storage failing, two successive
calls to `getDeviceId` in the same process draw fresh randomness and
return different fallback ids (here the draws 0 and 1 give different
strings), and the fallback is not persisted; so repeated calls do not
observe a single stable fallback id. -/
theorem c9_fallback_not_stable :
    ((getDeviceId false (fun _ => 0) { deviceId := none }).1 ≠
      (getDeviceId false (fun _ => 1) { deviceId := none }).1) ∧
    (getDeviceId false (fun _ => 0) { deviceId := none }).2 =
      { deviceId := none } := by
  decide

/-- Claim C9 as amended: `getDeviceId` returns the persisted id when one
exists; on first run it generates a UUID-shaped (36-character) id,
persists it and returns it; and when secure storage fails it returns a
freshly generated non-persisted id for that call, leaving the store
unchanged. -/
theorem c9_device_id_amended (rand1 : Nat → Nat) (id0 : String) :
    getDeviceId true rand1 { deviceId := some id0 } =
      (id0, { deviceId := some id0 }) ∧
    getDeviceId true rand1 { deviceId := none } =
      (generateDeviceId rand1, { deviceId := some (generateDeviceId rand1) }) ∧
    (∀ s : StorageState, getDeviceId false rand1 s = (generateDeviceId rand1, s)) ∧
    (generateDeviceId rand1).length = 36 := by
  refine ⟨rfl, rfl, fun s => rfl, ?_⟩
  have h1 : (generateDeviceId rand1).length = uuidTemplate.length :=
    genChars_length rand1 uuidTemplate 0
  rw [h1]; rfl

/-- Claim C10: a 401 on a non-auth request when no refresh is in flight
and no refresh token is stored: `performTokenRefresh` returns null
rather than throwing, no network refresh call is issued, the interceptor
rejects the caller with the original 401 error, no logout happens (the
in-memory token and the secure store are unchanged) and `isRefreshing`
is reset to false. -/
theorem c10_no_stored_token (i : Nat) (u : String) (mem : Option String)
    (net : NetResult) (hu : strStartsWith u "/auth/" = false) :
    runRound [⟨i, u, false⟩] net
        { inMemoryAccessToken := mem
          storedRefreshToken := none
          isRefreshing := false
          refreshSubscribers := []
          refreshNetworkCalls := 0 } =
      ({ inMemoryAccessToken := mem
         storedRefreshToken := none
         isRefreshing := false
         refreshSubscribers := []
         refreshNetworkCalls := 0 },
        [(i, Outcome.rejectedOriginal)]) ∧
    (performTokenRefresh net
        { inMemoryAccessToken := mem
          storedRefreshToken := none
          isRefreshing := true
          refreshSubscribers := []
          refreshNetworkCalls := 0 }).1 = RefreshOutcome.nullTok := by
  have hguard : respGuard 401 false u = GuardDecision.attemptRefresh :=
    respGuard_ok u hu
  constructor
  · simp [runRound, arriveList, handleResponseError, hguard, completeRefresh,
      performTokenRefresh]
  · rfl

/-- Witness for C10 at a concrete request and a network outcome that
would have been an error had a call been made. -/
theorem c10_no_stored_token_witness :
    runRound [⟨7, "/transactions", false⟩] (NetResult.errOther "boom")
        { inMemoryAccessToken := some "AT1"
          storedRefreshToken := none
          isRefreshing := false
          refreshSubscribers := []
          refreshNetworkCalls := 0 } =
      ({ inMemoryAccessToken := some "AT1"
         storedRefreshToken := none
         isRefreshing := false
         refreshSubscribers := []
         refreshNetworkCalls := 0 },
        [(7, Outcome.rejectedOriginal)]) ∧
    (performTokenRefresh (NetResult.errOther "boom")
        { inMemoryAccessToken := some "AT1"
          storedRefreshToken := none
          isRefreshing := true
          refreshSubscribers := []
          refreshNetworkCalls := 0 }).1 = RefreshOutcome.nullTok :=
  c10_no_stored_token 7 "/transactions" (some "AT1") (NetResult.errOther "boom")
    (by decide)

end Finamo
